import Mathlib

/-!
Shallow embedding of the blog-app server (`src/server.js`) and its
Mongoose models (the models file exporting `BlogPost` and `User`).

The document store is modelled as explicit in-memory state: a list of
user records and a list of post records with a store-assigned counter
for fresh ids.  The bcrypt capability is a parameter
`verify : String → String → Bool` (supplied password, stored digest).
Express handlers are pure functions from request data and store state
to the list of responses they emit (a list, because the `POST /posts`
and `PUT /posts/:id` handlers can respond more than once) and the new
store state.
-/

namespace BlogApp

/-- A stored `User` document: store-assigned id, unique username,
password digest, and name parts (defaulting to empty strings). -/
structure User where
  id : Nat
  username : String
  password : String
  firstName : String
  lastName : String
  deriving Repr, DecidableEq

/-- The embedded `author` subdocument of a blog post. -/
structure Author where
  firstName : String
  lastName : String
  deriving Repr, DecidableEq

/-- A stored `BlogPost` document.  `title` is required by the schema
(creation validates it), `content` is optional, `created` defaults to
the creation time. -/
structure BlogPost where
  id : Nat
  author : Author
  title : String
  content : Option String
  created : Nat
  deriving Repr, DecidableEq

/-- JavaScript's `String.prototype.trim`: strip whitespace from both
ends of the string. -/
def jsTrim (s : String) : String :=
  ⟨((s.data.dropWhile Char.isWhitespace).reverse.dropWhile
      Char.isWhitespace).reverse⟩

/-- The virtual `authorName` field of the post schema: the trimmed
concatenation of the author first and last names. -/
def authorName (a : Author) : String :=
  jsTrim (a.firstName ++ " " ++ a.lastName)

/-- The serialized form of a post, per `blogPostSchema.methods.apiRepr`. -/
structure PostRepr where
  id : Nat
  author : String
  content : Option String
  title : String
  created : Nat
  deriving Repr, DecidableEq

/-- Serialization of a post, the `apiRepr` method. -/
def BlogPost.apiRepr (p : BlogPost) : PostRepr :=
  { id := p.id
    author := authorName p.author
    content := p.content
    title := p.title
    created := p.created }

/-- The serialized form of a user, per `UserSchema.methods.apiRepr`:
the digest is excluded. -/
structure UserRepr where
  username : String
  firstName : String
  lastName : String
  deriving Repr, DecidableEq

/-- Serialization of a user, the `apiRepr` method. -/
def User.apiRepr (u : User) : UserRepr :=
  { username := u.username, firstName := u.firstName, lastName := u.lastName }

/-- The credential store: the `users` collection plus the counter the
store uses to assign fresh ids. -/
structure UserStore where
  users : List User
  nextId : Nat
  deriving Repr, DecidableEq

/-- The post store: the `blogposts` collection plus the counter the
store uses to assign fresh ids. -/
structure PostStore where
  posts : List BlogPost
  nextId : Nat
  deriving Repr, DecidableEq

/-- Lookup `User.findOne` by username: first stored user with that
username. -/
def findOneByUsername (s : UserStore) (username : String) : Option User :=
  s.users.find? (fun u => u.username == username)

/-- Count of stored users with a username, `User.find(...).count()`. -/
def countByUsername (s : UserStore) (username : String) : Nat :=
  (s.users.filter (fun u => u.username == username)).length

/-- Creation `User.create(...)`: the schema requires `username` and
`password` to be present and non-empty; on success the store assigns
a fresh id. -/
def createUser (s : UserStore) (username digest firstName lastName : String) :
    Option (User × UserStore) :=
  if username = "" ∨ digest = "" then none
  else
    let u : User :=
      { id := s.nextId, username := username, password := digest
        firstName := firstName, lastName := lastName }
    some (u, { users := s.users ++ [u], nextId := s.nextId + 1 })

/-- Lookup `BlogPost.findById(id)`. -/
def findPostById (s : PostStore) (id : Nat) : Option BlogPost :=
  s.posts.find? (fun p => p.id == id)

/-- Creation `BlogPost.create(...)`: the schema requires a non-empty
`title`; on success the store assigns a fresh id and stamps `created`
with the current time. -/
def createPost (s : PostStore) (a : Author) (title content : Option String)
    (now : Nat) : Option (BlogPost × PostStore) :=
  match title with
  | none => none
  | some t =>
    if t = "" then none
    else
      let p : BlogPost :=
        { id := s.nextId, author := a, title := t, content := content
          created := now }
      some (p, { posts := s.posts ++ [p], nextId := s.nextId + 1 })

/-- The `$set` document built by the `PUT /posts/:id` handler: the
`title` and `content` fields present in the request body. -/
structure UpdateDoc where
  title : Option String
  content : Option String
  deriving Repr, DecidableEq

/-- Applying a `$set` of the update document to a stored post:
present fields overwrite, absent fields are untouched. -/
def applySet (u : UpdateDoc) (p : BlogPost) : BlogPost :=
  { p with
    title := u.title.getD p.title
    content := match u.content with
      | some c => some c
      | none => p.content }

/-- Overwriting every stored post carrying an id with a document. -/
def setPostById (s : PostStore) (id : Nat) (x : BlogPost) : PostStore :=
  { s with posts := s.posts.map (fun q => if q.id == id then x else q) }

/-- Update `BlogPost.findByIdAndUpdate` with a set document and the
new-document option: returns the updated document (or none when the
id is absent) and the new store. -/
def findPostByIdAndUpdate (s : PostStore) (id : Nat) (u : UpdateDoc) :
    Option BlogPost × PostStore :=
  match s.posts.find? (fun p => p.id == id) with
  | none => (none, s)
  | some p =>
    let p' := applySet u p
    (some p', setPostById s id p')

/-- Removal `BlogPost.findByIdAndRemove(id)`. -/
def removePostById (s : PostStore) (id : Nat) : PostStore :=
  { s with posts := s.posts.filter (fun p => p.id ≠ id) }

/-- The internal failure reason the `BasicStrategy` callback attaches
(`Incorrect username` / `Incorrect password`). -/
inductive Reason where
  | incorrectUsername
  | incorrectPassword
  deriving Repr, DecidableEq

/-- Outcome of the auth gate: an authenticated user document, or a
rejection carrying the internal reason. -/
inductive AuthResult where
  | failure : Reason → AuthResult
  | success : User → AuthResult
  deriving Repr, DecidableEq

/-- The `BasicStrategy` callback of `server.js`: look the user up by
username; absent ⇒ fail with the incorrect-username reason; otherwise
run `validatePassword` (bcrypt compare of the supplied password
against the stored digest, modelled by the capability `verify`);
mismatch ⇒ fail with the incorrect-password reason; otherwise succeed
with the stored user document. -/
def authenticate (s : UserStore) (verify : String → String → Bool)
    (username password : String) : AuthResult :=
  match findOneByUsername s username with
  | none => .failure .incorrectUsername
  | some user =>
    if verify password user.password then .success user
    else .failure .incorrectPassword

/-- The JSON bodies the server can emit. -/
inductive Body where
  | postRepr : PostRepr → Body
  | postList : List PostRepr → Body
  | userRepr : UserRepr → Body
  | msg : String → Body
  | err : String → Body
  | unauthorized : Body
  deriving Repr, DecidableEq

/-- An HTTP response: status code and JSON body. -/
structure Response where
  status : Nat
  body : Body
  deriving Repr, DecidableEq

/-- The response passport emits when Basic authentication fails,
whatever the internal reason: 401 with its fixed unauthorized body. -/
def resp401 : Response := { status := 401, body := .unauthorized }

/-- Basic credentials attached to a request, when present. -/
def Credentials := Option (String × String)

/-- The basic-auth passport middleware composed with a
route handler over the post store: missing or rejected credentials
short-circuit to the fixed 401 response without running the handler. -/
def requireAuth (s : UserStore) (verify : String → String → Bool)
    (creds : Credentials) (store : PostStore)
    (handler : User → List Response × PostStore) :
    List Response × PostStore :=
  match creds with
  | none => ([resp401], store)
  | some (username, password) =>
    match authenticate s verify username password with
    | .failure _ => ([resp401], store)
    | .success user => handler user

/-- Request body for the posts endpoints; each field maps to presence
of that key in the JSON body. -/
structure PostsBody where
  id : Option Nat
  title : Option String
  content : Option String
  deriving Repr, DecidableEq

/-- Request body for `POST /users`; a `none` field is an absent key,
`some ""` an empty value — both falsy to the handler's check. -/
structure UsersBody where
  username : Option String
  password : Option String
  firstName : Option String
  lastName : Option String
  deriving Repr, DecidableEq

/-- The handler's falsiness test `!req.body[field]`. -/
def falsy : Option String → Bool
  | none => true
  | some v => v == ""

/-- The `POST /users` handler.  Checks required fields in order and
responds 400 naming the first falsy one; otherwise trims username and
password, pre-checks for a duplicate username (422), hashes the
password and creates the user (201 with its serialization, digest
excluded), mapping store failure to a generic 500. -/
def handlePostUsers (s : UserStore) (hash : String → String)
    (b : UsersBody) : Response × UserStore :=
  if falsy b.username then
    ({ status := 400, body := .msg "Missing field: username" }, s)
  else if falsy b.password then
    ({ status := 400, body := .msg "Missing field: password" }, s)
  else if falsy b.firstName then
    ({ status := 400, body := .msg "Missing field: firstName" }, s)
  else if falsy b.lastName then
    ({ status := 400, body := .msg "Missing field: lastName" }, s)
  else
    let username := jsTrim (b.username.getD "")
    let password := jsTrim (b.password.getD "")
    let firstName := b.firstName.getD ""
    let lastName := b.lastName.getD ""
    if countByUsername s username > 0 then
      ({ status := 422, body := .msg "username already taken" }, s)
    else
      match createUser s username (hash password) firstName lastName with
      | some (u, s') =>
        ({ status := 201, body := .userRepr u.apiRepr }, s')
      | none =>
        ({ status := 500, body := .msg "Internal server error" }, s)

/-- The `GET /posts` handler: 200 with every stored post serialized. -/
def handleGetPosts (store : PostStore) : Response :=
  { status := 200, body := .postList (store.posts.map BlogPost.apiRepr) }

/-- Serializing a lookup result: calling `.apiRepr()` on a null
document throws, which the surrounding `.catch` turns into a 500. -/
def tryApiRepr : Option BlogPost → Option PostRepr
  | none => none
  | some p => some p.apiRepr

/-- The `GET /posts/:id` handler: serialize the lookup result; the
throw on an absent document is caught and mapped to the generic 500. -/
def handleGetPostById (store : PostStore) (id : Nat) : Response :=
  match tryApiRepr (findPostById store id) with
  | some r => { status := 200, body := .postRepr r }
  | none => { status := 500, body := .err "something went horribly awry" }

/-- The `POST /posts` handler body (after the auth middleware).  The
required-field `forEach` responds 400 for each of `title`, `content`
absent from the body but does not return, so the create call runs
regardless, appending its own 201 or 500 response. -/
def handlePostPosts (user : User) (b : PostsBody) (store : PostStore)
    (now : Nat) : List Response × PostStore :=
  let validation :=
    (if b.title.isNone then
      [{ status := 400, body := .err "Missing \"title\" in request body" }]
     else []) ++
    (if b.content.isNone then
      [{ status := 400, body := .err "Missing \"content\" in request body" }]
     else [])
  match createPost store { firstName := user.firstName, lastName := user.lastName }
      b.title b.content now with
  | some (p, store') =>
    (validation ++ [{ status := 201, body := .postRepr p.apiRepr }], store')
  | none =>
    (validation ++ [{ status := 500, body := .err "Something went wrong" }], store)

/-- The `PUT /posts/:id` handler body (after the auth middleware).
The id-mismatch check responds 400 but does not return, so the update
runs regardless; the updated document is serialized at 201, and an
absent id makes the serialization throw, caught as a 500. -/
def handlePutPost (paramsId : Nat) (b : PostsBody) (store : PostStore) :
    List Response × PostStore :=
  let mismatch :=
    if b.id == some paramsId then []
    else [{ status := 400,
            body := .err "Request path id and request body id values must match" }]
  let upd : UpdateDoc := { title := b.title, content := b.content }
  let (updatedPost, store') := findPostByIdAndUpdate store paramsId upd
  match tryApiRepr updatedPost with
  | some r => (mismatch ++ [{ status := 201, body := .postRepr r }], store')
  | none =>
    (mismatch ++ [{ status := 500, body := .msg "Something went wrong" }], store')

/-- The `DELETE /posts/:id` handler body (after the auth middleware):
remove by id and respond 204 whether or not a record existed. -/
def handleDeletePost (paramsId : Nat) (store : PostStore) :
    List Response × PostStore :=
  ([{ status := 204, body := .msg "success" }], removePostById store paramsId)

/-- The full `POST /posts` route: auth middleware then handler. -/
def postPostsRoute (s : UserStore) (verify : String → String → Bool)
    (creds : Credentials) (b : PostsBody) (store : PostStore) (now : Nat) :
    List Response × PostStore :=
  requireAuth s verify creds store (fun user => handlePostPosts user b store now)

/-- The full `PUT /posts/:id` route: auth middleware then handler. -/
def putPostRoute (s : UserStore) (verify : String → String → Bool)
    (creds : Credentials) (paramsId : Nat) (b : PostsBody) (store : PostStore) :
    List Response × PostStore :=
  requireAuth s verify creds store (fun _ => handlePutPost paramsId b store)

/-- The full `DELETE /posts/:id` route: auth middleware then handler. -/
def deletePostRoute (s : UserStore) (verify : String → String → Bool)
    (creds : Credentials) (paramsId : Nat) (store : PostStore) :
    List Response × PostStore :=
  requireAuth s verify creds store (fun _ => handleDeletePost paramsId store)

/-! ## Concrete fixtures, mirroring the integration-test seed data -/

/-- A sample stored user. -/
def alice : User :=
  { id := 0, username := "alice", password := "d0"
    firstName := "A", lastName := "L" }

/-- A one-user credential store holding `alice`. -/
def aliceStore : UserStore := { users := [alice], nextId := 1 }

/-- A sample verify capability: accept exactly the stored digest. -/
def eqVerify : String → String → Bool := fun p d => p == d

/-- An empty post store. -/
def emptyPosts : PostStore := { posts := [], nextId := 0 }

/-- A sample stored post. -/
def post0 : BlogPost :=
  { id := 0, author := { firstName := "A", lastName := "L" }
    title := "T", content := some "C", created := 7 }

/-- A one-post store holding `post0`. -/
def onePost : PostStore := { posts := [post0], nextId := 1 }

/-- A sample well-formed `POST /posts` body. -/
def fullBody : PostsBody := { id := none, title := some "T", content := some "C" }

/-- A `POST /posts` body missing `content`. -/
def titleOnlyBody : PostsBody := { id := none, title := some "T", content := none }

/-- A `POST /posts` body missing `title`. -/
def contentOnlyBody : PostsBody :=
  { id := none, title := none, content := some "C" }

/-- A `PUT /posts/:id` body targeting id 0 and updating only `title`. -/
def putBody0 : PostsBody := { id := some 0, title := some "T2", content := none }

/-- A `PUT /posts/:id` body targeting id 3 and updating only `title`. -/
def putBody3 : PostsBody := { id := some 3, title := some "T2", content := none }

/-- A sample hash capability. -/
def sampleHash : String → String := fun p => "h" ++ p

/-- A `POST /users` body whose username collides with `alice`. -/
def dupBody : UsersBody :=
  { username := some "alice", password := some "pw"
    firstName := some "F", lastName := some "L" }

/-- A `POST /users` body with an absent username. -/
def noNameBody : UsersBody :=
  { username := none, password := some "pw"
    firstName := some "F", lastName := some "L" }

/-! ## Helper lemmas -/

/-- In a store whose usernames are pairwise distinct, `findOne` by
username returns exactly the member carrying that username. -/
theorem findOne_eq_of_mem (l : List User) (name : String) (u : User)
    (huniq : l.Pairwise (fun a b => a.username ≠ b.username))
    (hmem : u ∈ l) (hname : u.username = name) :
    l.find? (fun v => v.username == name) = some u := by
  induction l with
  | nil => cases hmem
  | cons v t ih =>
    rcases List.pairwise_cons.mp huniq with ⟨hv, ht⟩
    rcases List.mem_cons.mp hmem with h | h
    · subst h
      simp [List.find?, hname]
    · have hne : v.username ≠ name := fun hvn => hv u h (hname ▸ hvn)
      have hb : (v.username == name) = false := by
        simpa using hne
      simp only [List.find?, hb]
      exact ih ht h

/-- Lookup by username misses when no member carries the username. -/
theorem findOne_eq_none (l : List User) (name : String)
    (h : ∀ u ∈ l, u.username ≠ name) :
    l.find? (fun v => v.username == name) = none := by
  apply List.find?_eq_none.mpr
  intro u hu
  simpa using h u hu

/-- Appending a post with a fresh id: lookup by that id finds it. -/
theorem find?_append_singleton (l : List BlogPost) (p : BlogPost)
    (h : ∀ q ∈ l, q.id ≠ p.id) :
    (l ++ [p]).find? (fun q => q.id == p.id) = some p := by
  induction l with
  | nil =>
    simp
  | cons v t ih =>
    rw [List.cons_append, List.find?_cons_of_neg]
    · exact ih fun q hq => h q (List.mem_cons_of_mem v hq)
    · simpa using h v (List.mem_cons_self v t)

/-- Rewriting every post carrying an id to a document that still
carries it: lookup by that id now finds the rewritten document,
provided it found some document before. -/
theorem find?_map_ite (l : List BlogPost) (id : Nat) (x : BlogPost)
    (hx : x.id = id) (p : BlogPost)
    (hp : l.find? (fun q => q.id == id) = some p) :
    (l.map (fun q => if q.id == id then x else q)).find?
      (fun q => q.id == id) = some x := by
  induction l with
  | nil => cases hp
  | cons v t ih =>
    by_cases hv : (v.id == id) = true
    · rw [List.map_cons, if_pos hv]
      exact List.find?_cons_of_pos _ (by simp [hx])
    · rw [List.find?_cons_of_neg] at hp
      · rw [List.map_cons, if_neg hv, List.find?_cons_of_neg]
        · exact ih hp
        · exact hv
      · exact hv

/-! ## Claims -/

/-- C2: `authenticate` fails with the incorrect-username reason when no
stored user carries the queried username; with a stored user whose
digest rejects the supplied password under `verify` it fails with the
incorrect-password reason; and with a stored user whose digest accepts
it, it succeeds carrying that stored user's identity. -/
theorem authenticate_cases (s : UserStore) (verify : String → String → Bool)
    (username password : String)
    (huniq : s.users.Pairwise (fun a b => a.username ≠ b.username)) :
    ((∀ u ∈ s.users, u.username ≠ username) →
      authenticate s verify username password = .failure .incorrectUsername) ∧
    (∀ u ∈ s.users, u.username = username →
      verify password u.password = false →
      authenticate s verify username password = .failure .incorrectPassword) ∧
    (∀ u ∈ s.users, u.username = username →
      verify password u.password = true →
      authenticate s verify username password = .success u) := by
  refine ⟨fun h => ?_, fun u hu hname hv => ?_, fun u hu hname hv => ?_⟩
  · simp [authenticate, findOneByUsername, findOne_eq_none s.users username h]
  · simp [authenticate, findOneByUsername,
      findOne_eq_of_mem s.users username u huniq hu hname, hv]
  · simp [authenticate, findOneByUsername,
      findOne_eq_of_mem s.users username u huniq hu hname, hv]

/-- C2 witness: a one-user store exercising all three branches. -/
theorem authenticate_cases_witness :
    authenticate aliceStore eqVerify "bob" "pw" = .failure .incorrectUsername ∧
    authenticate aliceStore eqVerify "alice" "pw" = .failure .incorrectPassword ∧
    authenticate aliceStore eqVerify "alice" "d0" = .success alice := by
  refine ⟨?_, ?_, ?_⟩
  · exact (authenticate_cases aliceStore eqVerify "bob" "pw" (by decide)).1
      (by decide)
  · exact (authenticate_cases aliceStore eqVerify "alice" "pw" (by decide)).2.1
      alice (by decide) (by decide) (by decide)
  · exact (authenticate_cases aliceStore eqVerify "alice" "d0" (by decide)).2.2
      alice (by decide) (by decide) (by decide)

/-- C3: two requests to the protected `POST /posts` route, one failing
authentication on an unknown username and the other on a wrong
password for an existing user, produce identical HTTP-visible
outcomes: the same fixed 401 response, whose body carries no failure
reason. -/
theorem auth_failures_indistinguishable (s : UserStore)
    (verify : String → String → Bool) (u1 p1 u2 p2 : String)
    (b1 b2 : PostsBody) (store1 store2 : PostStore) (now1 now2 : Nat)
    (h1 : authenticate s verify u1 p1 = .failure .incorrectUsername)
    (h2 : authenticate s verify u2 p2 = .failure .incorrectPassword) :
    (postPostsRoute s verify (some (u1, p1)) b1 store1 now1).1 =
      (postPostsRoute s verify (some (u2, p2)) b2 store2 now2).1 ∧
    (postPostsRoute s verify (some (u1, p1)) b1 store1 now1).1 =
      [{ status := 401, body := .unauthorized }] := by
  constructor <;> simp [postPostsRoute, requireAuth, h1, h2, resp401]

/-- C3 witness: unknown username vs wrong password on a concrete
store; both outcomes coincide. -/
theorem auth_failures_indistinguishable_witness :
    (postPostsRoute aliceStore eqVerify (some ("bob", "x"))
        fullBody emptyPosts 7).1 =
    (postPostsRoute aliceStore eqVerify (some ("alice", "wrong"))
        fullBody emptyPosts 7).1 := by
  exact (auth_failures_indistinguishable aliceStore eqVerify "bob" "x"
    "alice" "wrong" fullBody fullBody emptyPosts emptyPosts 7 7
    (by decide) (by decide)).1

/-- C1: each protected write route, invoked with credentials that are
missing or rejected by the auth gate, answers with the fixed 401 and
leaves the post store unchanged. -/
theorem write_routes_401_no_mutation (s : UserStore)
    (verify : String → String → Bool) (creds : Credentials)
    (b : PostsBody) (store : PostStore) (now paramsId : Nat)
    (h : creds = none ∨ ∃ up r, creds = some up ∧
      authenticate s verify up.1 up.2 = .failure r) :
    postPostsRoute s verify creds b store now = ([resp401], store) ∧
    putPostRoute s verify creds paramsId b store = ([resp401], store) ∧
    deletePostRoute s verify creds paramsId store = ([resp401], store) ∧
    resp401.status = 401 := by
  rcases h with h | ⟨⟨u, p⟩, r, hc, ha⟩
  · subst h
    simp [postPostsRoute, putPostRoute, deletePostRoute, requireAuth, resp401]
  · subst hc
    simp [postPostsRoute, putPostRoute, deletePostRoute, requireAuth, ha, resp401]

/-- C1 witness: missing credentials against a concrete store. -/
theorem write_routes_401_no_mutation_witness :
    postPostsRoute aliceStore eqVerify none fullBody onePost 7 =
      ([resp401], onePost) ∧
    deletePostRoute aliceStore eqVerify none 0 onePost = ([resp401], onePost) := by
  refine ⟨?_, ?_⟩
  · exact (write_routes_401_no_mutation aliceStore eqVerify none fullBody
      onePost 7 0 (Or.inl rfl)).1
  · exact (write_routes_401_no_mutation aliceStore eqVerify none fullBody
      onePost 7 0 (Or.inl rfl)).2.2.1

/-- C9: `GET /posts/:id` for an id carried by no stored post responds
with the generic 500, the null lookup result having made serialization
throw into the catch-all. -/
theorem getPostById_absent_500 (store : PostStore) (id : Nat)
    (h : ∀ p ∈ store.posts, p.id ≠ id) :
    handleGetPostById store id =
      { status := 500, body := .err "something went horribly awry" } := by
  have hfind : findPostById store id = none := by
    apply List.find?_eq_none.mpr
    intro p hp
    simpa using h p hp
  simp [handleGetPostById, hfind, tryApiRepr]

/-- C9 witness: a store holding one post, queried for another id. -/
theorem getPostById_absent_500_witness :
    handleGetPostById onePost 5 =
      { status := 500, body := .err "something went horribly awry" } := by
  exact getPostById_absent_500 onePost 5 (by decide)

/-- C4: an authenticated `POST /posts` with title and content takes
the author from the authenticated identity, answers 201 with the
serialized author equal to the identity's trimmed "firstName
lastName" and the requested title and content, and the new post then
appears in `GET /posts` and `GET /posts/:id`. -/
theorem postPosts_creates (s : UserStore) (verify : String → String → Bool)
    (un pw : String) (user : User) (b : PostsBody) (t c : String)
    (store : PostStore) (now : Nat)
    (hauth : authenticate s verify un pw = .success user)
    (ht : b.title = some t) (htne : t ≠ "") (hc : b.content = some c)
    (hinv : ∀ q ∈ store.posts, q.id < store.nextId) :
    ∃ p : BlogPost,
      postPostsRoute s verify (some (un, pw)) b store now =
        ([{ status := 201, body := .postRepr p.apiRepr }],
          { posts := store.posts ++ [p], nextId := store.nextId + 1 }) ∧
      p.author = { firstName := user.firstName, lastName := user.lastName } ∧
      p.apiRepr.author = jsTrim (user.firstName ++ " " ++ user.lastName) ∧
      p.apiRepr.title = t ∧
      p.apiRepr.content = some c ∧
      handleGetPosts { posts := store.posts ++ [p], nextId := store.nextId + 1 } =
        { status := 200,
          body := .postList ((store.posts ++ [p]).map BlogPost.apiRepr) } ∧
      p.apiRepr ∈ (store.posts ++ [p]).map BlogPost.apiRepr ∧
      handleGetPostById
        { posts := store.posts ++ [p], nextId := store.nextId + 1 } p.id =
        { status := 200, body := .postRepr p.apiRepr } := by
  refine ⟨{ id := store.nextId
            author := { firstName := user.firstName, lastName := user.lastName }
            title := t, content := some c, created := now },
    ?_, rfl, rfl, rfl, rfl, rfl, ?_, ?_⟩
  · simp [postPostsRoute, requireAuth, hauth, handlePostPosts, ht, hc,
      createPost, htne]
  · exact List.mem_map_of_mem _ (by simp)
  · have hf := find?_append_singleton store.posts
      { id := store.nextId
        author := { firstName := user.firstName, lastName := user.lastName }
        title := t, content := some c, created := now }
      (fun q hq => Nat.ne_of_lt (hinv q hq))
    simp [handleGetPostById, findPostById, hf, tryApiRepr]

/-- C4 witness: alice creates a post in an empty store. -/
theorem postPosts_creates_witness :
    ∃ p : BlogPost,
      postPostsRoute aliceStore eqVerify (some ("alice", "d0")) fullBody
          emptyPosts 7 =
        ([{ status := 201, body := .postRepr p.apiRepr }],
          { posts := emptyPosts.posts ++ [p], nextId := emptyPosts.nextId + 1 }) ∧
      p.author = { firstName := alice.firstName, lastName := alice.lastName } ∧
      p.apiRepr.author = jsTrim (alice.firstName ++ " " ++ alice.lastName) ∧
      p.apiRepr.title = "T" ∧
      p.apiRepr.content = some "C" ∧
      handleGetPosts
          { posts := emptyPosts.posts ++ [p], nextId := emptyPosts.nextId + 1 } =
        { status := 200,
          body := .postList ((emptyPosts.posts ++ [p]).map BlogPost.apiRepr) } ∧
      p.apiRepr ∈ (emptyPosts.posts ++ [p]).map BlogPost.apiRepr ∧
      handleGetPostById
          { posts := emptyPosts.posts ++ [p], nextId := emptyPosts.nextId + 1 }
          p.id =
        { status := 200, body := .postRepr p.apiRepr } := by
  exact postPosts_creates aliceStore eqVerify "alice" "d0" alice fullBody
    "T" "C" emptyPosts 7 (by decide) rfl (by decide) rfl (by decide)

/-- C5: an authenticated `PUT /posts/:id` with matching path and body
ids on an existing post changes only the title/content fields present
in the body; the stored post keeps its id, author, created and any
absent field, and every other stored post is untouched. -/
theorem putPost_frame (s : UserStore) (verify : String → String → Bool)
    (un pw : String) (user : User) (paramsId : Nat) (b : PostsBody)
    (store : PostStore) (p : BlogPost)
    (hauth : authenticate s verify un pw = .success user)
    (hid : b.id = some paramsId)
    (hfind : store.posts.find? (fun q => q.id == paramsId) = some p) :
    ∃ p' : BlogPost,
      putPostRoute s verify (some (un, pw)) paramsId b store =
        ([{ status := 201, body := .postRepr p'.apiRepr }],
          setPostById store paramsId p') ∧
      p'.id = p.id ∧
      p'.author = p.author ∧
      p'.created = p.created ∧
      p'.title = (match b.title with | some v => v | none => p.title) ∧
      p'.content =
        (match b.content with | some v => some v | none => p.content) ∧
      (setPostById store paramsId p').posts.find?
        (fun q => q.id == paramsId) = some p' ∧
      (∀ q ∈ store.posts, (q.id == paramsId) = false →
        q ∈ (setPostById store paramsId p').posts) := by
  have hpid : (p.id == paramsId) = true := by
    simpa using List.find?_some hfind
  refine ⟨applySet { title := b.title, content := b.content } p,
    ?_, rfl, rfl, rfl, ?_, ?_, ?_, ?_⟩
  · simp [putPostRoute, requireAuth, hauth, handlePutPost, hid,
      findPostByIdAndUpdate, hfind, tryApiRepr]
  · cases b.title <;> simp [applySet]
  · cases b.content <;> simp [applySet]
  · exact find?_map_ite store.posts paramsId _
      (by simpa [applySet] using hpid) p hfind
  · intro q hq hne
    exact List.mem_map.mpr ⟨q, hq, by simp [setPostById, hne]⟩

/-- C5 witness: updating only the title of the one stored post. -/
theorem putPost_frame_witness :
    ∃ p' : BlogPost,
      putPostRoute aliceStore eqVerify (some ("alice", "d0")) 0 putBody0
          onePost =
        ([{ status := 201, body := .postRepr p'.apiRepr }],
          setPostById onePost 0 p') ∧
      p'.id = post0.id ∧
      p'.author = post0.author ∧
      p'.created = post0.created ∧
      p'.title = (match putBody0.title with | some v => v | none => post0.title) ∧
      p'.content =
        (match putBody0.content with | some v => some v | none => post0.content) ∧
      (setPostById onePost 0 p').posts.find?
        (fun q => q.id == 0) = some p' ∧
      (∀ q ∈ onePost.posts, (q.id == 0) = false →
        q ∈ (setPostById onePost 0 p').posts) := by
  exact putPost_frame aliceStore eqVerify "alice" "d0" alice 0 putBody0
    onePost post0 (by decide) rfl (by decide)

/-- C10: an authenticated `PUT /posts/:id` with matching ids but an id
carried by no stored post answers the generic 500 — not 404 and not
201 — and leaves the store unchanged: the update finds no record and
serializing the absent result throws into the catch-all. -/
theorem putPost_absent_500 (s : UserStore) (verify : String → String → Bool)
    (un pw : String) (user : User) (paramsId : Nat) (b : PostsBody)
    (store : PostStore)
    (hauth : authenticate s verify un pw = .success user)
    (hid : b.id = some paramsId)
    (habs : ∀ q ∈ store.posts, q.id ≠ paramsId) :
    putPostRoute s verify (some (un, pw)) paramsId b store =
      ([{ status := 500, body := .msg "Something went wrong" }], store) := by
  have hf : store.posts.find? (fun q => q.id == paramsId) = none := by
    apply List.find?_eq_none.mpr
    intro q hq
    simpa using habs q hq
  simp [putPostRoute, requireAuth, hauth, handlePutPost, hid,
    findPostByIdAndUpdate, hf, tryApiRepr]

/-- C10 witness: updating an id absent from a one-post store. -/
theorem putPost_absent_500_witness :
    putPostRoute aliceStore eqVerify (some ("alice", "d0")) 3 putBody3
        onePost =
      ([{ status := 500, body := .msg "Something went wrong" }], onePost) := by
  exact putPost_absent_500 aliceStore eqVerify "alice" "d0" alice 3 putBody3
    onePost (by decide) rfl (by decide)

/-- C8: on an authenticated `POST /posts` missing `title` or
`content`, a 400 naming the missing field is emitted, yet the handler
does not stop: the create call still runs after the 400 — failing to
a further 500 when `title` is absent, and actually storing a
content-less post when only `content` is absent. -/
theorem postPosts_validation_no_halt (s : UserStore)
    (verify : String → String → Bool) (un pw : String) (user : User)
    (b : PostsBody) (store : PostStore) (now : Nat)
    (hauth : authenticate s verify un pw = .success user) :
    (b.title = none →
      ∃ rest,
        (postPostsRoute s verify (some (un, pw)) b store now).1 =
          { status := 400,
            body := .err "Missing \"title\" in request body" } :: rest ∧
        (postPostsRoute s verify (some (un, pw)) b store now).1.getLast? =
          some { status := 500, body := .err "Something went wrong" } ∧
        (postPostsRoute s verify (some (un, pw)) b store now).2 = store) ∧
    (∀ t, b.title = some t → t ≠ "" → b.content = none →
      ∃ p : BlogPost,
        postPostsRoute s verify (some (un, pw)) b store now =
          ([{ status := 400, body := .err "Missing \"content\" in request body" },
            { status := 201, body := .postRepr p.apiRepr }],
            { posts := store.posts ++ [p], nextId := store.nextId + 1 }) ∧
        p.content = none) := by
  constructor
  · intro ht
    cases hc : b.content with
    | none =>
      refine ⟨[{ status := 400, body := .err "Missing \"content\" in request body" },
          { status := 500, body := .err "Something went wrong" }], ?_, ?_, ?_⟩ <;>
        simp [postPostsRoute, requireAuth, hauth, handlePostPosts, ht, hc,
          createPost]
    | some c =>
      refine ⟨[{ status := 500, body := .err "Something went wrong" }],
          ?_, ?_, ?_⟩ <;>
        simp [postPostsRoute, requireAuth, hauth, handlePostPosts, ht, hc,
          createPost]
  · intro t ht htne hc
    refine ⟨{ id := store.nextId
              author := { firstName := user.firstName, lastName := user.lastName }
              title := t, content := none, created := now }, ?_, rfl⟩
    simp [postPostsRoute, requireAuth, hauth, handlePostPosts, ht, hc,
      createPost, htne]

/-- C8 witness: alice posting without a title, then without content. -/
theorem postPosts_validation_no_halt_witness :
    (∃ rest,
      (postPostsRoute aliceStore eqVerify (some ("alice", "d0"))
          contentOnlyBody emptyPosts 7).1 =
        { status := 400,
          body := .err "Missing \"title\" in request body" } :: rest ∧
      (postPostsRoute aliceStore eqVerify (some ("alice", "d0"))
          contentOnlyBody emptyPosts 7).1.getLast? =
        some { status := 500, body := .err "Something went wrong" } ∧
      (postPostsRoute aliceStore eqVerify (some ("alice", "d0"))
          contentOnlyBody emptyPosts 7).2 = emptyPosts) ∧
    (∃ p : BlogPost,
      postPostsRoute aliceStore eqVerify (some ("alice", "d0")) titleOnlyBody
          emptyPosts 7 =
        ([{ status := 400, body := .err "Missing \"content\" in request body" },
          { status := 201, body := .postRepr p.apiRepr }],
          { posts := emptyPosts.posts ++ [p], nextId := emptyPosts.nextId + 1 }) ∧
      p.content = none) := by
  refine ⟨?_, ?_⟩
  · exact (postPosts_validation_no_halt aliceStore eqVerify "alice" "d0" alice
      contentOnlyBody emptyPosts 7 (by decide)).1 rfl
  · exact (postPosts_validation_no_halt aliceStore eqVerify "alice" "d0" alice
      titleOnlyBody emptyPosts 7 (by decide)).2 "T" rfl (by decide) rfl

/-- C6: a `POST /users` whose four required fields are all present and
non-empty but whose trimmed username is already counted in the
credential store answers 422 "username already taken" and leaves the
store unchanged — no 201, no new record. -/
theorem postUsers_duplicate_422 (s : UserStore) (hash : String → String)
    (b : UsersBody)
    (h1 : falsy b.username = false) (h2 : falsy b.password = false)
    (h3 : falsy b.firstName = false) (h4 : falsy b.lastName = false)
    (hdup : 0 < countByUsername s (jsTrim (b.username.getD ""))) :
    handlePostUsers s hash b =
      ({ status := 422, body := .msg "username already taken" }, s) := by
  simp [handlePostUsers, h1, h2, h3, h4, hdup]

/-- C6 witness: registering alice's username a second time. -/
theorem postUsers_duplicate_422_witness :
    handlePostUsers aliceStore sampleHash dupBody =
      ({ status := 422, body := .msg "username already taken" }, aliceStore) := by
  exact postUsers_duplicate_422 aliceStore sampleHash dupBody rfl rfl rfl rfl
    (by decide)

/-- C7: a `POST /users` with a falsy required field answers 400 naming
the first falsy field in the order username, password, firstName,
lastName, and leaves the credential store unchanged. -/
theorem postUsers_missing_field_400 (s : UserStore) (hash : String → String)
    (b : UsersBody) :
    (falsy b.username = true →
      handlePostUsers s hash b =
        ({ status := 400, body := .msg "Missing field: username" }, s)) ∧
    (falsy b.username = false → falsy b.password = true →
      handlePostUsers s hash b =
        ({ status := 400, body := .msg "Missing field: password" }, s)) ∧
    (falsy b.username = false → falsy b.password = false →
      falsy b.firstName = true →
      handlePostUsers s hash b =
        ({ status := 400, body := .msg "Missing field: firstName" }, s)) ∧
    (falsy b.username = false → falsy b.password = false →
      falsy b.firstName = false → falsy b.lastName = true →
      handlePostUsers s hash b =
        ({ status := 400, body := .msg "Missing field: lastName" }, s)) := by
  refine ⟨fun k1 => ?_, fun k1 k2 => ?_, fun k1 k2 k3 => ?_,
    fun k1 k2 k3 k4 => ?_⟩ <;> simp [handlePostUsers, k1, *]

/-- C7 witness: a body with an absent username. -/
theorem postUsers_missing_field_400_witness :
    handlePostUsers aliceStore sampleHash noNameBody =
      ({ status := 400, body := .msg "Missing field: username" }, aliceStore) := by
  exact (postUsers_missing_field_400 aliceStore sampleHash noNameBody).1 rfl

end BlogApp
